import Mathlib

/-!
Verification of the recursive filesystem copy engine
(`lib/internal/fs/copy/copy.js` — the promise/async dialect,
`lib/internal/fs/copy/copy-sync.js` — the blocking dialect, and the
callback dialect) as a shallow embedding in Lean.

Paths are modelled POSIX-style: a path string is split on `"/"`, empty
components are dropped, and `path.resolve` is modelled at the component
level (absolute paths keep their own components, relative paths are
appended to the current working directory's components, `"."` and `".."`
are normalized away).  Stat records carry the fields the engine consults
(`dev`, `ino`, file kind, `mode`, `atime`, `mtime`).  The ambient
filesystem calls are modelled either as explicit parameters (oracles) or
as entries of an effect trace, so every decision made by the engine's own
code is reproduced faithfully.
-/

namespace NodeFsCopy

/-- File kinds distinguished by the engine's type dispatcher. -/
inductive FileKind where
  | regular
  | directory
  | symlink
  | blockDevice
  | charDevice
  | socket
  | fifo
  | unknown
deriving DecidableEq, Repr

/-- The stat record fields consulted by the copy engine (`bigint` stats
are modelled with unbounded `Nat`/`Int`). -/
structure Stat where
  dev : Nat
  ino : Nat
  kind : FileKind
  mode : Nat
  atime : Int
  mtime : Int
deriving DecidableEq, Repr

/-- `stat.isDirectory()` on the modelled record. -/
def Stat.isDirectory (s : Stat) : Bool := s.kind == .directory

/-- The `ERR_FS_COPY_*` error variants raised by the engine. -/
inductive CopyErrKind where
  | toSubdirectory
  | dirToNonDir
  | nonDirToDir
  | eexist
  | socket
  | fifoPipe
  | symlinkToSubdirectory
  | unknown
deriving DecidableEq, Repr

/-- An error outcome: either one of the engine's own `ERR_FS_COPY_*`
errors (carrying the `code` string the source passes, e.g. `"EINVAL"`;
the numeric `errno` field in the source is the constant named by that
same string), or a propagated ambient filesystem error carrying its
`err.code`. -/
inductive Err where
  | copy (kind : CopyErrKind) (code : String)
  | fs (code : String)
deriving DecidableEq, Repr

/-! ## Path model -/

/-- Split a character list at every `'/'` (structural model of
`String.split` on the POSIX separator). -/
def splitOnSlash : List Char → List Char → List (List Char)
  | [], acc => [acc.reverse]
  | c :: rest, acc =>
    if c = '/' then acc.reverse :: splitOnSlash rest []
    else splitOnSlash rest (c :: acc)

/-- Split a path string on the separator and drop empty components
(the `.split(sep).filter(Boolean)` idiom of the source). -/
def splitPath (p : String) : List String :=
  ((splitOnSlash p.data []).map (fun l => String.mk l)).filter
    (fun s => s ≠ "")

/-- `path.isAbsolute` for POSIX paths: first character is `'/'`. -/
def isAbsolute (p : String) : Bool :=
  match p.data with
  | [] => false
  | c :: _ => c == '/'

/-- Normalization step of `path.resolve`: `"."` components are dropped,
`".."` removes the preceding component. -/
def normalizeComps (cs : List String) : List String :=
  cs.foldl
    (fun acc c =>
      if c = "." then acc
      else if c = ".." then acc.dropLast
      else acc ++ [c])
    []

/-- Component array of `path.resolve(p)` with current working directory
`cwd`: absolute paths resolve on their own components, relative paths
against `cwd`. -/
def resolveComps (cwd p : String) : List String :=
  if isAbsolute p then normalizeComps (splitPath p)
  else normalizeComps (splitPath cwd ++ splitPath p)

/-- Render a resolved (absolute) component list back to a path string. -/
def compsToPath (cs : List String) : String :=
  "/" ++ String.intercalate "/" cs

/-- `path.resolve(p)` (one argument) as a string. -/
def resolvePath (cwd p : String) : String :=
  compsToPath (resolveComps cwd p)

/-- `path.resolve(base, p)` (two arguments): if `p` is absolute it wins;
otherwise it is resolved against `base`, itself resolved against `cwd`. -/
def resolve2 (cwd base p : String) : String :=
  if isAbsolute p then compsToPath (normalizeComps (splitPath p))
  else if isAbsolute base then
    compsToPath (normalizeComps (splitPath base ++ splitPath p))
  else
    compsToPath (normalizeComps (splitPath cwd ++ splitPath base ++ splitPath p))

/-- `path.dirname`, modelled for component-normalized inputs: drop the
last component; the dirname of a relative single component is `"."`. -/
def dirname (p : String) : String :=
  if isAbsolute p then compsToPath ((splitPath p).dropLast)
  else
    match (splitPath p).dropLast with
    | [] => "."
    | cs => String.intercalate "/" cs

/-! ## Path-identity predicates -/

/-- `areIdentical(srcStat, destStat)` from `copy.js`:
`destStat.ino && destStat.dev && destStat.ino === srcStat.ino &&
destStat.dev === srcStat.dev` — JS truthiness of a number is
"nonzero". -/
def areIdentical (srcStat destStat : Stat) : Bool :=
  destStat.ino != 0 && destStat.dev != 0 &&
    destStat.ino == srcStat.ino && destStat.dev == srcStat.dev

/-- `normalizePathToArray` from `copy.js`:
`resolve(path).split(sep).filter(Boolean)` (the leading empty string of
an absolute path is filtered out, so this is exactly the resolved
component array). -/
def normalizePathToArray (cwd p : String) : List String :=
  resolveComps cwd p

/-- `isSrcSubdir(src, dest)` from `copy.js` (promise dialect):
`ArrayPrototypeEvery(srcArr, (cur, i) => destArr[i] === cur)`;
`destArr[i]` is `undefined` (≠ any string) beyond the end. -/
def isSrcSubdir (cwd src dest : String) : Bool :=
  let srcArr := normalizePathToArray cwd src
  let destArr := normalizePathToArray cwd dest
  srcArr.enum.all (fun p => destArr[p.1]? == some p.2)

/-- `isSrcSubdir(src, dest)` from the callback dialect:
`srcArr.reduce((acc, cur, i) => acc && destArr[i] === cur, true)`. -/
def isSrcSubdirCb (cwd src dest : String) : Bool :=
  let srcArr := normalizePathToArray cwd src
  let destArr := normalizePathToArray cwd dest
  srcArr.enum.foldl (fun acc p => acc && (destArr[p.1]? == some p.2)) true

/-! ## Pre-flight validator: `checkPaths` -/

/-- `checkPaths` from `copy.js` (identical logic in `checkPathsSync`),
given the stat pair that `getStats` produced (`destStat = none` models
the recovered-ENOENT "dest is absent" outcome). -/
def checkPaths (cwd src dest : String) (srcStat : Stat)
    (destStat : Option Stat) : Except Err (Stat × Option Stat) :=
  match destStat with
  | some dst =>
    if areIdentical srcStat dst then
      .error (.copy .toSubdirectory "EINVAL")
    else if srcStat.isDirectory && !dst.isDirectory then
      .error (.copy .dirToNonDir "EISDIR")
    else if !srcStat.isDirectory && dst.isDirectory then
      .error (.copy .nonDirToDir "ENOTDIR")
    else if srcStat.isDirectory && isSrcSubdir cwd src dest then
      .error (.copy .toSubdirectory "EINVAL")
    else .ok (srcStat, destStat)
  | none =>
    if srcStat.isDirectory && isSrcSubdir cwd src dest then
      .error (.copy .toSubdirectory "EINVAL")
    else .ok (srcStat, destStat)

/-- The priority ordering of `checkPaths` exactly as the specification
words it, written as a guard chain over the same inputs; compared with
the source-derived `checkPaths` for the refinement theorem. -/
def checkPathsSpec (cwd src dest : String) (srcStat : Stat)
    (destStat : Option Stat) : Except Err (Stat × Option Stat) :=
  if destStat.any (fun d => areIdentical srcStat d) then
    .error (.copy .toSubdirectory "EINVAL")
  else if srcStat.isDirectory && destStat.any (fun d => !d.isDirectory) then
    .error (.copy .dirToNonDir "EISDIR")
  else if !srcStat.isDirectory && destStat.any (fun d => d.isDirectory) then
    .error (.copy .nonDirToDir "ENOTDIR")
  else if srcStat.isDirectory && isSrcSubdir cwd src dest then
    .error (.copy .toSubdirectory "EINVAL")
  else .ok (srcStat, destStat)

/-! ## Options -/

/-- The option flags consulted by the copy engine.  The promise dialect
reads `opts.force` for overwriting; the blocking and callback dialects
read `opts.overwrite`. -/
structure Opts where
  force : Bool
  overwrite : Bool
  errorOnExist : Bool
  preserveTimestamps : Bool
  dereference : Bool
deriving DecidableEq, Repr

/-! ## File copier: effect traces -/

/-- Filesystem effects recorded by the file-copy pipeline. -/
inductive FsOp where
  | unlinkOp (p : String)
  | copyFileOp (src dest : String)
  | chmodOp (p : String) (mode : Nat)
  | statSrcOp (p : String)
  | openRwOp (p : String)
  | futimesOp (atime mtime : Int)
  | closeFdOp
deriving DecidableEq, Repr

/-- `fileIsNotWritable(srcMode)`: `(srcMode & 0o200) === 0`. -/
def fileIsNotWritable (srcMode : Nat) : Bool := (srcMode &&& 0o200) == 0

/-- Success-path effects of `setDestTimestamps` (restat src, then
`utimesMillis`: open dest `r+`, futimes, close). -/
def setDestTimestampsOps (updatedSrcStat : Stat) (src dest : String) :
    List FsOp :=
  [.statSrcOp src, .openRwOp dest,
   .futimesOp updatedSrcStat.atime updatedSrcStat.mtime, .closeFdOp]

/-- `_copyFile` from the promise dialect: byte copy, then (under
`preserveTimestamps`) `handleTimestampsAndMode` — transient write-enable
chmod when the owner-write bit is absent, restat + utimes, final chmod
to `srcStat.mode`; without `preserveTimestamps` just the final chmod.
`updatedSrcStat` is the result of the restat of src. -/
def copyFileOpsAsync (srcStat updatedSrcStat : Stat) (src dest : String)
    (opts : Opts) : List FsOp :=
  .copyFileOp src dest ::
    (if opts.preserveTimestamps then
      (if fileIsNotWritable srcStat.mode then
        [.chmodOp dest (srcStat.mode ||| 0o200)]
      else []) ++
        setDestTimestampsOps updatedSrcStat src dest ++
        [.chmodOp dest srcStat.mode]
    else [.chmodOp dest srcStat.mode])

/-- `copyFile` from the blocking dialect: `copyFileSync`, then (under
`preserveTimestamps`) `handleTimestamps` (transient chmod + restat +
futimes) and in every case the final `setDestMode` chmod. -/
def copyFileOpsSync (srcStat updatedSrcStat : Stat) (src dest : String)
    (opts : Opts) : List FsOp :=
  .copyFileOp src dest ::
    ((if opts.preserveTimestamps then
      (if fileIsNotWritable srcStat.mode then
        [.chmodOp dest (srcStat.mode ||| 0o200)]
      else []) ++
        setDestTimestampsOps updatedSrcStat src dest
    else []) ++ [.chmodOp dest srcStat.mode])

/-- `mayCopyFile` from the promise dialect (`destStat` is known non-null
when this runs): `opts.force` → unlink then byte copy; else
`opts.errorOnExist` → `ERR_FS_COPY_EEXIST`; else return silently. -/
def mayCopyFileAsync (srcStat updatedSrcStat : Stat) (src dest : String)
    (opts : Opts) : Except Err (List FsOp) :=
  if opts.force then
    .ok (.unlinkOp dest :: copyFileOpsAsync srcStat updatedSrcStat src dest opts)
  else if opts.errorOnExist then
    .error (.copy .eexist "EEXIST")
  else .ok []

/-- `mayCopyFile` from the blocking dialect (flag name `overwrite`). -/
def mayCopyFileSync (srcStat updatedSrcStat : Stat) (src dest : String)
    (opts : Opts) : Except Err (List FsOp) :=
  if opts.overwrite then
    .ok (.unlinkOp dest :: copyFileOpsSync srcStat updatedSrcStat src dest opts)
  else if opts.errorOnExist then
    .error (.copy .eexist "EEXIST")
  else .ok []

/-- Observable metadata of the destination file. -/
structure DestState where
  mode : Nat
  atime : Int
  mtime : Int
deriving DecidableEq, Repr

/-- Effect of one trace entry on the destination's metadata; `now` is
the clock value the byte copy's write stamps on dest's mtime. -/
def applyOp (now : Int) (st : DestState) : FsOp → DestState
  | .copyFileOp _ _ => ⟨st.mode, st.atime, now⟩
  | .chmodOp _ m => ⟨m, st.atime, st.mtime⟩
  | .futimesOp a m => ⟨st.mode, a, m⟩
  | _ => st

/-- Run a trace over the destination's metadata. -/
def applyOps (now : Int) (st : DestState) (ops : List FsOp) : DestState :=
  ops.foldl (applyOp now) st

/-! ## `utimesMillis`: file-descriptor discipline -/

/-- Steps performed on the descriptor opened by the timestamp path. -/
inductive FdStep where
  | openStep
  | futimesStep
  | closeStep
deriving DecidableEq, Repr

/-- `utimesMillisSync` from the blocking dialect: `openSync`,
`futimesSync`, `closeSync` in straight-line sequence — an exception
from `futimesSync` propagates immediately and `closeSync` is skipped.
The parameters supply the outcomes of `openSync` and `futimesSync`
(`none` = success); the pair returned is (steps performed, error). -/
def utimesMillisSyncTrace (openErr futimesErr : Option String) :
    List FdStep × Option String :=
  match openErr with
  | some e => ([], some e)
  | none =>
    match futimesErr with
    | some e => ([.openStep, .futimesStep], some e)
    | none => ([.openStep, .futimesStep, .closeStep], none)

/-- `utimesMillis` from the promise dialect: `await fd.utimes` inside
`try … finally await fd.close()` — close runs on both exits. -/
def utimesMillisAsyncTrace (openErr futimesErr : Option String) :
    List FdStep × Option String :=
  match openErr with
  | some e => ([], some e)
  | none =>
    match futimesErr with
    | some e => ([.openStep, .futimesStep, .closeStep], some e)
    | none => ([.openStep, .futimesStep, .closeStep], none)

/-- `utimesMillis` from the callback dialect: the `futimes` callback
always calls `close(fd)`, and the completion callback receives
`futimesErr || closeErr`. -/
def utimesMillisCbTrace (openErr futimesErr closeErr : Option String) :
    List FdStep × Option String :=
  match openErr with
  | some e => ([], some e)
  | none =>
    ([.openStep, .futimesStep, .closeStep],
      match futimesErr with
      | some e => some e
      | none => closeErr)

/-! ## Directory copier: child processing order -/

/-- The promise dialect `copyDir` loop
`for (let i = 0; i < dir.length; i++) { … dir[i] … }`: children
processed from position `i` on. -/
def copyDirOrderAsyncFrom (dir : List String) (i : Nat) : List String :=
  if h : i < dir.length then dir[i] :: copyDirOrderAsyncFrom dir (i + 1)
  else []
termination_by dir.length - i

/-- Children processed by the promise dialect `copyDir`, in order. -/
def copyDirOrderAsync (dir : List String) : List String :=
  copyDirOrderAsyncFrom dir 0

/-- Children processed by the blocking dialect
`readdirSync(src).forEach((item) => copyDirItem(item, …))`, in order. -/
def copyDirOrderSync (dir : List String) : List String :=
  dir.foldl (fun acc item => acc ++ [item]) []

/-- `copyDirItems` from the callback dialect: `items.pop()` removes the
LAST array element; the recursion continues on the shortened array until
`pop` yields `undefined`. -/
def copyDirItemsOrder (items : List String) : List String :=
  match h : items.getLast? with
  | none => []
  | some item => item :: copyDirItemsOrder items.dropLast
termination_by items.length
decreasing_by
  cases items with
  | nil => simp at h
  | cons a as => simp

/-! ## Symlink copier: target re-anchoring and overwrite guard -/

/-- Promise-dialect `onLink` re-anchoring of `readlink(src)`'s target:
`if (!isAbsolute(resolvedSrc)) resolvedSrc = resolve(dirname(src),
resolvedSrc)` — unconditional, not gated on `opts.dereference`. -/
def resolvedSrcAsync (cwd src target : String) : String :=
  if !(isAbsolute target) then resolve2 cwd (dirname src) target
  else target

/-- Blocking and callback dialect `onLink` re-anchoring:
`if (opts.dereference) resolvedSrc = resolve(process.cwd(),
resolvedSrc)`. -/
def resolvedSrcSyncCb (cwd target : String) (dereference : Bool) : String :=
  if dereference then resolve2 cwd cwd target else target

/-- The re-anchoring exactly as the claim/specification words it: the
target of `readlink(src)` resolved against `dirname(src)` (canonical
resolution relative to src's directory).  Compared against the
source-derived definitions above. -/
def resolvedSrcClaim (cwd src target : String) : String :=
  resolve2 cwd (dirname src) target

/-- Everything `onLink` consults when the destination already exists,
gathered as an oracle record (one field per ambient filesystem answer). -/
structure LinkScenario where
  cwd : String
  src : String
  dest : String
  srcTarget : String
  destStatPresent : Bool
  destReadlink : Except String String
  srcStatIsDir : Bool
  destStatIsDir : Bool
  destLstatIsDir : Bool
  dereference : Bool
deriving Repr

/-- Observable outcome of one `onLink` invocation. -/
inductive LinkOutcome where
  | symlinkNoUnlink (target : String)
  | unlinkThenSymlink (target : String)
  | errToSubdir
  | errSymlinkToSubdir
  | errPropagated (code : String)
deriving DecidableEq, Repr

/-- `onLink` from the promise dialect (`copy.js`): re-anchor a relative
target against `dirname(src)`; absent dest → plain symlink; a non-link
dest (readlink `EINVAL`/`UNKNOWN`) → plain symlink (ambient `EEXIST`
surfaces from the syscall); then the containment guard, the
symlink-overwrite guard tested on `stat(src).isDirectory()`, and
finally unlink + symlink. -/
def onLinkAsync (sc : LinkScenario) : LinkOutcome :=
  let resolvedSrc :=
    if !(isAbsolute sc.srcTarget) then
      resolve2 sc.cwd (dirname sc.src) sc.srcTarget
    else sc.srcTarget
  if !sc.destStatPresent then .symlinkNoUnlink resolvedSrc
  else
    match sc.destReadlink with
    | .error code =>
      if code = "EINVAL" || code = "UNKNOWN" then .symlinkNoUnlink resolvedSrc
      else .errPropagated code
    | .ok rd =>
      let resolvedDest :=
        if !(isAbsolute rd) then resolve2 sc.cwd (dirname sc.dest) rd
        else rd
      if isSrcSubdir sc.cwd resolvedSrc resolvedDest then .errToSubdir
      else if sc.srcStatIsDir && isSrcSubdir sc.cwd resolvedDest resolvedSrc then
        .errSymlinkToSubdir
      else .unlinkThenSymlink resolvedSrc

/-- `onLink` from the blocking dialect (`copy-sync.js`): re-anchors
against `process.cwd()` only under `dereference`; its
symlink-overwrite guard is tested on `statSync(dest).isDirectory()`. -/
def onLinkSync (sc : LinkScenario) : LinkOutcome :=
  let resolvedSrc :=
    if sc.dereference then resolve2 sc.cwd sc.cwd sc.srcTarget
    else sc.srcTarget
  if !sc.destStatPresent then .symlinkNoUnlink resolvedSrc
  else
    match sc.destReadlink with
    | .error code =>
      if code = "EINVAL" || code = "UNKNOWN" then .symlinkNoUnlink resolvedSrc
      else .errPropagated code
    | .ok rd =>
      let resolvedDest :=
        if sc.dereference then resolve2 sc.cwd sc.cwd rd else rd
      if isSrcSubdir sc.cwd resolvedSrc resolvedDest then .errToSubdir
      else if sc.destStatIsDir && isSrcSubdir sc.cwd resolvedDest resolvedSrc then
        .errSymlinkToSubdir
      else .unlinkThenSymlink resolvedSrc

/-- `onLink` from the callback dialect: like the blocking variant, but
its overwrite guard tests `destStat.isDirectory()` (the lstat-based
record passed in) and then calls `stat.isSrcSubdir(…)` — a property
that does not exist on the `fs.stat` function, so evaluating the second
conjunct would throw a `TypeError`. -/
def onLinkCb (sc : LinkScenario) : LinkOutcome :=
  let resolvedSrc :=
    if sc.dereference then resolve2 sc.cwd sc.cwd sc.srcTarget
    else sc.srcTarget
  if !sc.destStatPresent then .symlinkNoUnlink resolvedSrc
  else
    match sc.destReadlink with
    | .error code =>
      if code = "EINVAL" || code = "UNKNOWN" then .symlinkNoUnlink resolvedSrc
      else .errPropagated code
    | .ok rd =>
      let resolvedDest :=
        if sc.dereference then resolve2 sc.cwd sc.cwd rd else rd
      if isSrcSubdir sc.cwd resolvedSrc resolvedDest then .errToSubdir
      else if sc.destLstatIsDir then .errPropagated "TypeError"
      else .unlinkThenSymlink resolvedSrc

/-- A concrete, filesystem-consistent scenario: `src = /s/link` is a
symlink to the directory `/a/b`; `dest = /d/link` is an existing
symlink to the directory `/a` (so dest's lstat is not a directory while
`stat(dest)` and `stat(src)` are); no `dereference`. -/
def divergentLinkScenario : LinkScenario :=
  ⟨"/w", "/s/link", "/d/link", "/a/b", true, .ok "/a", true, true, false,
    false⟩

/-! ## Pre-flight validator: `checkParentPaths` ancestor walk -/

/-- Result of statting an ancestor during the parent walk. -/
inductive StatOutcome where
  | found (st : Stat)
  | enoent
  | failed (code : String)
deriving DecidableEq, Repr

/-- `checkParentPaths` (same logic in all three dialects): paths are
modelled as resolved absolute component lists, `resolve(dirname(p))` is
`dropLast`, and `parse(p).root` is the empty component list; `statFn`
is the ambient `stat` oracle.  The walk stops without error at
`srcParent` or at the root, converts an `ENOENT` stat into a normal
stop, propagates any other stat error, raises
`ERR_FS_COPY_TO_SUBDIRECTORY` when an ancestor is inode-identical to
`srcStat`, and otherwise recurses on the ancestor (Lean accepts the
recursion because each step drops one component). -/
def checkParentPaths (statFn : List String → StatOutcome) (srcStat : Stat)
    (srcParent dest : List String) : Except Err Unit :=
  if h : dest.dropLast = srcParent ∨ dest.dropLast = [] then .ok ()
  else
    match statFn dest.dropLast with
    | .enoent => .ok ()
    | .failed code => .error (.fs code)
    | .found destStat =>
      if areIdentical srcStat destStat then
        .error (.copy .toSubdirectory "EINVAL")
      else checkParentPaths statFn srcStat srcParent dest.dropLast
termination_by dest.length
decreasing_by
  cases dest with
  | nil => exact absurd (Or.inr rfl) h
  | cons a as => simp

/-! ## Helper lemmas -/

theorem all_enumFrom_eq_isPrefixOf (s : List String) : ∀ (n : Nat) (d : List String),
    ((List.enumFrom n s).all fun p => d[p.1]? == some p.2) =
      s.isPrefixOf (d.drop n) := by
  induction s with
  | nil => intro n d; simp [List.enumFrom, List.isPrefixOf]
  | cons a s ih =>
    intro n d
    cases hcase : d.drop n with
    | nil =>
      have hlen : d.length ≤ n := List.drop_eq_nil_iff.mp hcase
      have hnone : d[n]? = none := List.getElem?_eq_none hlen
      simp [List.enumFrom, List.isPrefixOf, hnone]
    | cons b t =>
      have hb : d[n]? = some b := by
        have h0 := List.getElem?_drop d n 0
        rw [hcase] at h0
        simpa using h0.symm
      have ht : d.drop (n + 1) = t := by
        have h1 := List.drop_drop 1 n d
        rw [hcase] at h1
        simpa using h1.symm
      have hrec := ih (n + 1) d
      rw [ht] at hrec
      simp only [List.enumFrom, List.all_cons, hrec, hb, List.isPrefixOf]
      by_cases hab : a = b
      · simp [hab]
      · have h1 : (a == b) = false := by simp [hab]
        have h2 : (b == a) = false := by
          simp only [beq_eq_false_iff_ne, ne_eq]
          exact fun hc => hab hc.symm
        simp [h1, h2]

theorem isSrcSubdir_eq_isPrefixOf (cwd src dest : String) :
    isSrcSubdir cwd src dest =
      (normalizePathToArray cwd src).isPrefixOf (normalizePathToArray cwd dest) := by
  have h := all_enumFrom_eq_isPrefixOf (normalizePathToArray cwd src) 0
    (normalizePathToArray cwd dest)
  simpa [isSrcSubdir, List.enum] using h

theorem foldl_and_eq_all (f : Nat × String → Bool) (l : List (Nat × String)) :
    ∀ (acc : Bool), l.foldl (fun a p => a && f p) acc = (acc && l.all f) := by
  induction l with
  | nil => intro acc; simp
  | cons x xs ih =>
    intro acc
    simp [List.foldl_cons, ih, List.all_cons, Bool.and_assoc]

/-- The two textual variants of `isSrcSubdir` (promise `every` form and
callback `reduce` form) agree: splitting the rendered `resolve` string
re-yields the resolved component array. -/
theorem isSrcSubdirCb_eq (cwd src dest : String) :
    isSrcSubdirCb cwd src dest = isSrcSubdir cwd src dest := by
  simp only [isSrcSubdirCb, isSrcSubdir]
  exact foldl_and_eq_all _ _ true

theorem copyDirOrderAsyncFrom_eq_drop (dir : List String) (i : Nat) :
    copyDirOrderAsyncFrom dir i = dir.drop i := by
  rw [copyDirOrderAsyncFrom]
  split
  · next h =>
    rw [copyDirOrderAsyncFrom_eq_drop dir (i + 1)]
    exact (List.drop_eq_getElem_cons h).symm
  · next h =>
    have hlen : dir.length ≤ i := Nat.le_of_not_lt h
    rw [List.drop_eq_nil_iff.mpr hlen]
termination_by dir.length - i

theorem copyDirItemsOrder_eq_reverse (items : List String) :
    copyDirItemsOrder items = items.reverse := by
  induction items using List.reverseRecOn with
  | nil => rw [copyDirItemsOrder]; rfl
  | append_singleton l a ih =>
    rw [copyDirItemsOrder]
    split
    · next heq =>
      rw [List.getLast?_concat] at heq
      exact absurd heq (by simp)
    · next item heq =>
      rw [List.getLast?_concat] at heq
      injection heq with heq2
      subst heq2
      rw [List.dropLast_concat, ih]
      simp

theorem foldl_append_singleton (l : List String) :
    ∀ acc : List String, l.foldl (fun acc it => acc ++ [it]) acc = acc ++ l := by
  induction l with
  | nil => intro acc; simp
  | cons x xs ih => intro acc; simp [List.foldl_cons, ih]

/-! ## Claim theorems -/

/-- C2: for every `(src, dest, opts)` pair (given the stat pair
`getStats` produced), `checkPaths` raises errors in exactly the
priority order stated by the specification — identical paths
(`EINVAL`), then directory-over-non-directory (`EISDIR`), then
non-directory-over-directory (`ENOTDIR`), then subdirectory containment
(`EINVAL`) — and otherwise returns the stat pair without error. -/
theorem checkPaths_matches_priority_spec (cwd src dest : String)
    (srcStat : Stat) (destStat : Option Stat) :
    checkPaths cwd src dest srcStat destStat =
      checkPathsSpec cwd src dest srcStat destStat := by
  cases destStat with
  | none => simp [checkPaths, checkPathsSpec, Option.any]
  | some dst => simp [checkPaths, checkPathsSpec, Option.any]

/-- C9: `isSrcSubdir src dest` returns true exactly when the component
array of the resolved src path (split on the separator, empty
components removed) is a prefix of the component array of the resolved
dest path; it is a pure function of the path strings (and the ambient
working directory) — both the promise (`every`) and callback
(`reduce`) textual variants compute this same predicate. -/
theorem isSrcSubdir_components_characterization (cwd src dest : String) :
    (isSrcSubdir cwd src dest = true ↔
      normalizePathToArray cwd src <+: normalizePathToArray cwd dest)
    ∧ isSrcSubdirCb cwd src dest = isSrcSubdir cwd src dest := by
  refine ⟨?_, isSrcSubdirCb_eq cwd src dest⟩
  rw [isSrcSubdir_eq_isPrefixOf]
  exact List.isPrefixOf_iff_prefix

/-- C10: `isSrcSubdir p p` is true for every path (a component array is
a prefix of itself), and consequently `checkPaths` raises
`ERR_FS_COPY_TO_SUBDIRECTORY` for a directory src whenever dest
resolves to the same components — even when dest does not exist
(`destStat = none`) and no inode identity is observed. -/
theorem isSrcSubdir_refl_checkPaths_same_path (cwd p src dest : String)
    (srcStat : Stat) (hdir : srcStat.kind = .directory)
    (hres : resolveComps cwd src = resolveComps cwd dest) :
    isSrcSubdir cwd p p = true ∧
      checkPaths cwd src dest srcStat none =
        .error (.copy .toSubdirectory "EINVAL") := by
  constructor
  · rw [isSrcSubdir_eq_isPrefixOf]
    exact List.isPrefixOf_iff_prefix.mpr (List.prefix_refl _)
  · have hsub : isSrcSubdir cwd src dest = true := by
      rw [isSrcSubdir_eq_isPrefixOf]
      unfold normalizePathToArray
      rw [hres]
      exact List.isPrefixOf_iff_prefix.mpr (List.prefix_refl _)
    have hd : srcStat.isDirectory = true := by
      simp [Stat.isDirectory, hdir]
    simp [checkPaths, hd, hsub]

/-- Witness for C10: concretely, copying directory `/a` (dev 1, ino 2)
onto the not-yet-existing path `/a` is rejected with
`ERR_FS_COPY_TO_SUBDIRECTORY`. -/
theorem isSrcSubdir_refl_checkPaths_same_path_witness :
    isSrcSubdir "/w" "/x/y" "/x/y" = true ∧
      checkPaths "/w" "/a" "/a" ⟨1, 2, .directory, 0o755, 0, 0⟩ none =
        .error (.copy .toSubdirectory "EINVAL") :=
  isSrcSubdir_refl_checkPaths_same_path "/w" "/x/y" "/a" "/a"
    ⟨1, 2, .directory, 0o755, 0, 0⟩ rfl rfl

/-- C3: for an existing destination regular file (`destStat ≠ null`
routes `onFile` into `mayCopyFile`): with the overwrite flag (`force`
in the promise dialect, `overwrite` in the blocking dialect) the
destination is unlinked and then byte-copied (the byte copy heads the
post-unlink trace); otherwise with `errorOnExist` the call raises
`ERR_FS_COPY_EEXIST` without touching dest; otherwise it returns
silently — no copy, no error, empty effect trace. -/
theorem mayCopyFile_overwrite_policy (srcStat updatedSrcStat : Stat)
    (src dest : String) (opts : Opts) :
    ((opts.force = true →
        mayCopyFileAsync srcStat updatedSrcStat src dest opts =
          .ok (.unlinkOp dest ::
            copyFileOpsAsync srcStat updatedSrcStat src dest opts)) ∧
      (opts.force = false → opts.errorOnExist = true →
        mayCopyFileAsync srcStat updatedSrcStat src dest opts =
          .error (.copy .eexist "EEXIST")) ∧
      (opts.force = false → opts.errorOnExist = false →
        mayCopyFileAsync srcStat updatedSrcStat src dest opts = .ok [])) ∧
    ((opts.overwrite = true →
        mayCopyFileSync srcStat updatedSrcStat src dest opts =
          .ok (.unlinkOp dest ::
            copyFileOpsSync srcStat updatedSrcStat src dest opts)) ∧
      (opts.overwrite = false → opts.errorOnExist = true →
        mayCopyFileSync srcStat updatedSrcStat src dest opts =
          .error (.copy .eexist "EEXIST")) ∧
      (opts.overwrite = false → opts.errorOnExist = false →
        mayCopyFileSync srcStat updatedSrcStat src dest opts = .ok [])) ∧
    (copyFileOpsAsync srcStat updatedSrcStat src dest opts).head? =
      some (.copyFileOp src dest) ∧
    (copyFileOpsSync srcStat updatedSrcStat src dest opts).head? =
      some (.copyFileOp src dest) :=
  ⟨⟨fun h => by simp [mayCopyFileAsync, h],
    fun h1 h2 => by simp [mayCopyFileAsync, h1, h2],
    fun h1 h2 => by simp [mayCopyFileAsync, h1, h2]⟩,
   ⟨fun h => by simp [mayCopyFileSync, h],
    fun h1 h2 => by simp [mayCopyFileSync, h1, h2],
    fun h1 h2 => by simp [mayCopyFileSync, h1, h2]⟩,
   rfl, rfl⟩

/-- Witness for C3: with `force` set, the promise dialect unlinks
`/d/f` and then byte-copies. -/
theorem mayCopyFile_overwrite_policy_witness :
    mayCopyFileAsync ⟨1, 2, .regular, 0o644, 5, 7⟩
        ⟨1, 2, .regular, 0o644, 6, 7⟩ "/s/f" "/d/f"
        ⟨true, false, false, false, false⟩ =
      .ok (.unlinkOp "/d/f" ::
        copyFileOpsAsync ⟨1, 2, .regular, 0o644, 5, 7⟩
          ⟨1, 2, .regular, 0o644, 6, 7⟩ "/s/f" "/d/f"
          ⟨true, false, false, false, false⟩) :=
  (mayCopyFile_overwrite_policy ⟨1, 2, .regular, 0o644, 5, 7⟩
    ⟨1, 2, .regular, 0o644, 6, 7⟩ "/s/f" "/d/f"
    ⟨true, false, false, false, false⟩).1.1 rfl

/-- C8: with `preserveTimestamps`, the destination ends with mode equal
to the source mode exactly and mtime equal to the source's (the restat
of src is assumed to preserve mtime — the byte copy only reads src, so
only atime is perturbed), in both the promise and the blocking
dialect; when the source mode lacks the owner-write bit the transient
`mode | 0o200` chmod is emitted before the utimes call and the final
chmod to `srcStat.mode` comes after it, undoing the transient bit. -/
theorem preserveTimestamps_final_mode_and_mtime (srcStat updatedSrcStat : Stat)
    (src dest : String) (opts : Opts) (now : Int) (st : DestState)
    (hpt : opts.preserveTimestamps = true)
    (hmt : updatedSrcStat.mtime = srcStat.mtime) :
    (applyOps now st
        (copyFileOpsAsync srcStat updatedSrcStat src dest opts)).mode =
      srcStat.mode ∧
    (applyOps now st
        (copyFileOpsAsync srcStat updatedSrcStat src dest opts)).mtime =
      srcStat.mtime ∧
    (applyOps now st
        (copyFileOpsSync srcStat updatedSrcStat src dest opts)).mode =
      srcStat.mode ∧
    (applyOps now st
        (copyFileOpsSync srcStat updatedSrcStat src dest opts)).mtime =
      srcStat.mtime ∧
    (fileIsNotWritable srcStat.mode = true →
      copyFileOpsAsync srcStat updatedSrcStat src dest opts =
        [.copyFileOp src dest, .chmodOp dest (srcStat.mode ||| 0o200),
         .statSrcOp src, .openRwOp dest,
         .futimesOp updatedSrcStat.atime updatedSrcStat.mtime, .closeFdOp,
         .chmodOp dest srcStat.mode]) := by
  by_cases hw : fileIsNotWritable srcStat.mode = true <;>
    simp [copyFileOpsAsync, copyFileOpsSync, setDestTimestampsOps, applyOps,
      applyOp, hpt, hw, hmt]

/-- Witness for C8: a 0o444 source file (the spec's scenario 8): the
final mode is 0o444 again and the mtime is the source's 7. -/
theorem preserveTimestamps_final_mode_and_mtime_witness :
    (applyOps 99 ⟨0, 0, 0⟩
        (copyFileOpsAsync ⟨1, 2, .regular, 0o444, 5, 7⟩
          ⟨1, 2, .regular, 0o444, 6, 7⟩ "/s/f" "/d/f"
          ⟨false, false, false, true, false⟩)).mode = 0o444 ∧
    (applyOps 99 ⟨0, 0, 0⟩
        (copyFileOpsAsync ⟨1, 2, .regular, 0o444, 5, 7⟩
          ⟨1, 2, .regular, 0o444, 6, 7⟩ "/s/f" "/d/f"
          ⟨false, false, false, true, false⟩)).mtime = 7 ∧
    (applyOps 99 ⟨0, 0, 0⟩
        (copyFileOpsSync ⟨1, 2, .regular, 0o444, 5, 7⟩
          ⟨1, 2, .regular, 0o444, 6, 7⟩ "/s/f" "/d/f"
          ⟨false, false, false, true, false⟩)).mode = 0o444 ∧
    (applyOps 99 ⟨0, 0, 0⟩
        (copyFileOpsSync ⟨1, 2, .regular, 0o444, 5, 7⟩
          ⟨1, 2, .regular, 0o444, 6, 7⟩ "/s/f" "/d/f"
          ⟨false, false, false, true, false⟩)).mtime = 7 ∧
    (fileIsNotWritable 0o444 = true →
      copyFileOpsAsync ⟨1, 2, .regular, 0o444, 5, 7⟩
          ⟨1, 2, .regular, 0o444, 6, 7⟩ "/s/f" "/d/f"
          ⟨false, false, false, true, false⟩ =
        [.copyFileOp "/s/f" "/d/f", .chmodOp "/d/f" (0o444 ||| 0o200),
         .statSrcOp "/s/f", .openRwOp "/d/f", .futimesOp 6 7, .closeFdOp,
         .chmodOp "/d/f" 0o444]) :=
  preserveTimestamps_final_mode_and_mtime ⟨1, 2, .regular, 0o444, 5, 7⟩
    ⟨1, 2, .regular, 0o444, 6, 7⟩ "/s/f" "/d/f"
    ⟨false, false, false, true, false⟩ 99 ⟨0, 0, 0⟩ rfl rfl

/-- Counterexample to C6: in the blocking dialect, when `futimesSync`
fails the descriptor has been opened but `closeSync` is never reached —
the error propagates with the descriptor still open. -/
theorem utimesMillisSync_fd_leak_cex :
    (utimesMillisSyncTrace none (some "EIO")).1.contains .openStep = true ∧
    (utimesMillisSyncTrace none (some "EIO")).1.contains .closeStep = false ∧
    (utimesMillisSyncTrace none (some "EIO")).2 = some "EIO" :=
  ⟨rfl, rfl, rfl⟩

/-- C6 amended: the promise dialect (`try`/`finally`) and the callback
dialect (close inside the futimes callback) close the descriptor on
every exit path on which it was opened, including a failing
futimes/utimes call; the blocking dialect closes it only when
`futimesSync` succeeds (its failure skips `closeSync`). -/
theorem utimesMillis_close_discipline
    (openErr futimesErr closeErr : Option String) :
    ((utimesMillisAsyncTrace openErr futimesErr).1.contains .openStep = true →
      (utimesMillisAsyncTrace openErr futimesErr).1.contains .closeStep =
        true) ∧
    ((utimesMillisCbTrace openErr futimesErr closeErr).1.contains .openStep =
        true →
      (utimesMillisCbTrace openErr futimesErr closeErr).1.contains .closeStep =
        true) ∧
    ((utimesMillisSyncTrace openErr futimesErr).1.contains .closeStep = true ↔
      openErr = none ∧ futimesErr = none) := by
  cases openErr <;> cases futimesErr <;>
    simp [utimesMillisAsyncTrace, utimesMillisCbTrace, utimesMillisSyncTrace,
      List.contains]

/-- Witness for C6 (amended): with a failing futimes, the promise
dialect still closes the descriptor. -/
theorem utimesMillis_close_discipline_witness :
    (utimesMillisAsyncTrace none (some "EIO")).1.contains .closeStep = true :=
  (utimesMillis_close_discipline none (some "EIO") none).1 rfl

/-- Counterexample to C4: with readdir result `["a", "b"]` the callback
dialect (`items.pop()` takes the LAST element) processes `"b"` first —
not the readdir order the claim states for every dialect. -/
theorem copyDirItems_reverse_cex :
    copyDirItemsOrder ["a", "b"] = ["b", "a"] ∧
      (["b", "a"] : List String) ≠ ["a", "b"] := by
  constructor
  · rw [copyDirItemsOrder_eq_reverse]; rfl
  · decide

/-- C4 amended: every dialect serializes children (one child's
mutations finish before the next child starts — the promise loop
awaits, the blocking loop is sequential, the callback recursion chains
through the completion callback); the promise and blocking dialects
process the readdir result exactly in readdir order, while the
callback dialect processes it exactly in reverse readdir order. -/
theorem copyDir_child_processing_order (dir items : List String) :
    copyDirOrderAsync dir = dir ∧
    copyDirOrderSync dir = dir ∧
    copyDirItemsOrder items = items.reverse := by
  refine ⟨?_, ?_, copyDirItemsOrder_eq_reverse items⟩
  · rw [copyDirOrderAsync, copyDirOrderAsyncFrom_eq_drop]
    exact List.drop_zero dir
  · rw [copyDirOrderSync, foldl_append_singleton]
    rfl

/-- Counterexample to C5: in the blocking (and callback) dialect with
`dereference` set, the relative target `"t"` of the symlink `/a/link`
is re-anchored against the working directory `/w` — yielding `/w/t`,
not the `/a/t` that resolution against `dirname(src)` (as the claim
states) would yield. -/
theorem resolvedSrc_cwd_anchor_cex :
    resolvedSrcSyncCb "/w" "t" true = "/w/t" ∧
    resolvedSrcClaim "/w" "/a/link" "t" = "/a/t" ∧
    ("/w/t" : String) ≠ "/a/t" := by
  refine ⟨rfl, rfl, by decide⟩

/-- C5 amended: the promise dialect re-anchors a relative link target
against `dirname(src)` — but unconditionally, independent of
`dereference`, and leaves absolute targets alone; the blocking and
callback dialects, when `dereference` is set, re-anchor the target
against the current working directory instead (and never re-anchor
when `dereference` is unset). -/
theorem resolvedSrc_anchoring (cwd src target : String)
    (habs : isAbsolute target = false) :
    resolvedSrcAsync cwd src target = resolvedSrcClaim cwd src target ∧
    resolvedSrcSyncCb cwd target true = resolve2 cwd cwd target ∧
    resolvedSrcSyncCb cwd target false = target := by
  refine ⟨?_, by simp [resolvedSrcSyncCb], by simp [resolvedSrcSyncCb]⟩
  simp [resolvedSrcAsync, resolvedSrcClaim, habs]

/-- Witness for C5 (amended) at the counterexample's input values. -/
theorem resolvedSrc_anchoring_witness :
    resolvedSrcAsync "/w" "/a/link" "t" = resolvedSrcClaim "/w" "/a/link" "t" ∧
    resolvedSrcSyncCb "/w" "t" true = resolve2 "/w" "/w" "t" ∧
    resolvedSrcSyncCb "/w" "t" false = "t" :=
  resolvedSrc_anchoring "/w" "/a/link" "t" rfl

/-- C7: the ancestor walk `checkParentPaths` (total in Lean precisely
because each recursive call replaces the walked path by its parent,
dropping one component) stops without error when the current ancestor
equals `resolve(dirname(src))` or the root of its own decomposition or
when statting it yields ENOENT; any other stat error propagates; an
ancestor inode-identical to `srcStat` raises
`ERR_FS_COPY_TO_SUBDIRECTORY`; and otherwise the walk recurses on the
parent. -/
theorem checkParentPaths_walk_spec (statFn : List String → StatOutcome)
    (srcStat : Stat) (srcParent dest : List String) :
    ((dest.dropLast = srcParent ∨ dest.dropLast = []) →
        checkParentPaths statFn srcStat srcParent dest = .ok ()) ∧
    (¬(dest.dropLast = srcParent ∨ dest.dropLast = []) →
        (statFn dest.dropLast = .enoent →
          checkParentPaths statFn srcStat srcParent dest = .ok ()) ∧
        (∀ code, statFn dest.dropLast = .failed code →
          checkParentPaths statFn srcStat srcParent dest =
            .error (.fs code)) ∧
        (∀ st, statFn dest.dropLast = .found st →
          areIdentical srcStat st = true →
          checkParentPaths statFn srcStat srcParent dest =
            .error (.copy .toSubdirectory "EINVAL")) ∧
        (∀ st, statFn dest.dropLast = .found st →
          areIdentical srcStat st = false →
          checkParentPaths statFn srcStat srcParent dest =
            checkParentPaths statFn srcStat srcParent dest.dropLast)) := by
  constructor
  · intro h
    rw [checkParentPaths]
    simp [h]
  · intro h
    refine ⟨?_, ?_, ?_, ?_⟩
    · intro hstat
      rw [checkParentPaths]
      simp [h, hstat]
    · intro code hstat
      rw [checkParentPaths]
      simp [h, hstat]
    · intro st hstat hid
      rw [checkParentPaths]
      simp [h, hstat, hid]
    · intro st hstat hid
      rw [checkParentPaths]
      simp [h, hstat, hid]

/-- Witness for C7: a two-component dest whose single ancestor is
absent — the walk ends without error. -/
theorem checkParentPaths_walk_spec_witness :
    checkParentPaths (fun _ => StatOutcome.enoent)
      ⟨1, 2, .directory, 0o755, 0, 0⟩ ["x"] ["a", "b"] = .ok () :=
  ((checkParentPaths_walk_spec (fun _ => StatOutcome.enoent)
    ⟨1, 2, .directory, 0o755, 0, 0⟩ ["x"] ["a", "b"]).2 (by decide)).1 rfl

/-- C1: the three dialects do NOT yield identical error
classifications on the symlink-overwrite guard.  In the concrete
scenario (src `/s/link` → directory `/a/b`; existing dest `/d/link` →
directory `/a`; no dereference) the promise dialect tests
`stat(src).isDirectory()` and the blocking dialect tests
`statSync(dest).isDirectory()` — both true here, so both raise
`ERR_FS_COPY_SYMLINK_TO_SUBDIRECTORY` — while the callback dialect
tests the lstat-based `destStat.isDirectory()`, false whenever
`readlink(dest)` succeeded, so its guard is dead code and it instead
unlinks dest and re-creates the symlink. -/
theorem onLink_dialects_diverge :
    onLinkAsync divergentLinkScenario = .errSymlinkToSubdir ∧
    onLinkSync divergentLinkScenario = .errSymlinkToSubdir ∧
    onLinkCb divergentLinkScenario = .unlinkThenSymlink "/a/b" ∧
    onLinkCb divergentLinkScenario ≠ onLinkAsync divergentLinkScenario := by
  refine ⟨by decide, by decide, by decide, by decide⟩

end NodeFsCopy
